import Mathlib

/-!
Verification of the persistence layer of the Provenance-AI artwork catalog.

The four SQLAlchemy models of src/database/models.py are embedded as Lean
structures: Float columns become ℚ, Integer columns become Int, String/Text
columns become String (Option String when nullable), DateTime columns become
Nat timestamps, JSON columns are opaque blobs kept as Option String, and a
database state is one list of rows per table.  The CRUD methods of
src/database/crud.py, the session scope of src/database/database.py and the
sample-data routine of database_setup.py are translated to pure functions
over these states.
-/

/-- Row of the artworks table (models.py, class Artwork).  Every column is a
field; nullable columns are Options. -/
structure Artwork where
  id : String
  title : String
  artist : String
  width : Option ℚ
  height : Option ℚ
  depth : Option ℚ
  medium : Option String
  materials : Option String
  creation_date : Option String
  description : Option String
  provenance : Option String
  catalog_number : Option String
  accession_number : Option String
  style : Option String
  period : Option String
  subject_matter : Option String
  reference_image_path : Option String
  thumbnail_path : Option String
  visual_features : Option String
  color_palette : Option String
  created_at : Nat
  updated_at : Nat
  deriving Repr, DecidableEq

/-- Row of the exhibitions table (models.py, class Exhibition). -/
structure Exhibition where
  id : String
  name : String
  museum : String
  gallery : Option String
  city : Option String
  country : Option String
  start_date : Option Nat
  end_date : Option Nat
  curator : Option String
  description : Option String
  type : Option String
  catalog_published : Bool
  catalog_isbn : Option String
  website_url : Option String
  created_at : Nat
  updated_at : Nat
  deriving Repr, DecidableEq

/-- Row of the installation_photos table (models.py, class InstallationPhoto). -/
structure InstallationPhoto where
  id : String
  exhibition_id : String
  image_path : String
  original_filename : Option String
  file_size : Option Int
  width : Option Int
  height : Option Int
  format : Option String
  camera_make : Option String
  camera_model : Option String
  capture_date : Option Nat
  photographer : Option String
  processed : Bool
  processing_date : Option Nat
  detection_results : Option String
  room : Option String
  wall : Option String
  view_type : Option String
  notes : Option String
  quality_score : Option ℚ
  created_at : Nat
  updated_at : Nat
  deriving Repr, DecidableEq

/-- Row of the artwork_appearances table (models.py, class ArtworkAppearance). -/
structure ArtworkAppearance where
  id : String
  artwork_id : String
  photo_id : String
  bbox_x : ℚ
  bbox_y : ℚ
  bbox_width : ℚ
  bbox_height : ℚ
  detection_confidence : ℚ
  matching_confidence : ℚ
  verified : Bool
  verified_by : Option String
  verification_date : Option Nat
  cropped_image_path : Option String
  features : Option String
  visible_percentage : Option ℚ
  occlusion_level : Option String
  lighting_quality : Option String
  notes : Option String
  created_at : Nat
  updated_at : Nat
  deriving Repr, DecidableEq

/-- A database state: one list of rows per table. -/
structure DBState where
  artworks : List Artwork
  exhibitions : List Exhibition
  photos : List InstallationPhoto
  appearances : List ArtworkAppearance
  deriving Repr, DecidableEq

def emptyDB : DBState := ⟨[], [], [], []⟩

/-- Primary-key well-formedness: within each table the id column is unique
(models.py declares id as primary_key on all four tables). -/
def DBState.wf (s : DBState) : Prop :=
  (s.artworks.map (fun a => a.id)).Nodup ∧
  (s.exhibitions.map (fun e => e.id)).Nodup ∧
  (s.photos.map (fun p => p.id)).Nodup ∧
  (s.appearances.map (fun ap => ap.id)).Nodup

instance (s : DBState) : Decidable s.wf := by
  unfold DBState.wf; infer_instance

/-- SQL AVG aggregate: NULL on an empty set of rows, otherwise the mean
(matching_confidence is a non-nullable column, so no NULL inputs occur). -/
def sqlAvg (xs : List ℚ) : Option ℚ :=
  if xs.isEmpty then none
  else some (xs.foldl (fun acc x => acc + x) 0 / (xs.length : ℚ))

/-- Return record of ArtworkAppearanceCRUD.get_statistics (crud.py 280-292). -/
structure AppearanceStats where
  total_appearances : Nat
  verified_appearances : Nat
  unverified_appearances : Nat
  verification_rate : ℚ
  average_confidence : ℚ
  deriving Repr, DecidableEq

namespace ArtworkAppearanceCRUD

/-- crud.py 280-292: total row count, count of verified rows, their
difference, verified/total guarded by total > 0, and SQL AVG of
matching_confidence with NULL coalesced to 0 (the Python `or 0`). -/
def get_statistics (rows : List ArtworkAppearance) : AppearanceStats :=
  let total := rows.length
  let verified := (rows.filter (fun ap => ap.verified == true)).length
  let avg_confidence := (sqlAvg (rows.map (fun ap => ap.matching_confidence))).getD 0
  { total_appearances := total
    verified_appearances := verified
    unverified_appearances := total - verified
    verification_rate := if total > 0 then (verified : ℚ) / (total : ℚ) else 0
    average_confidence := avg_confidence }

end ArtworkAppearanceCRUD

/-- Fixture appearance for the statistics test: only the verified flag and the
matching confidence vary; all other columns are fixed harmless values. -/
def statsFixtureRow (i : String) (v : Bool) (c : ℚ) : ArtworkAppearance :=
  { id := i, artwork_id := "art", photo_id := "ph"
    bbox_x := 0, bbox_y := 0, bbox_width := 1, bbox_height := 1
    detection_confidence := 1, matching_confidence := c
    verified := v, verified_by := none, verification_date := none
    cropped_image_path := none, features := none
    visible_percentage := none, occlusion_level := none, lighting_quality := none
    notes := none, created_at := 0, updated_at := 0 }

/-- The statistics fixture of the spec: verified flags true, false, true with
matching confidences 0.9, 0.5, 0.7. -/
def statsFixture : List ArtworkAppearance :=
  [statsFixtureRow "ap1" true (9/10), statsFixtureRow "ap2" false (1/2),
   statsFixtureRow "ap3" true (7/10)]

namespace ArtworkCRUD

/-- crud.py 32-34 instantiated at Artwork: first row whose id matches. -/
def get_by_id (s : DBState) (i : String) : Option Artwork :=
  s.artworks.find? (fun a => a.id == i)

end ArtworkCRUD

namespace ExhibitionCRUD

/-- crud.py 32-34 instantiated at Exhibition. -/
def get_by_id (s : DBState) (i : String) : Option Exhibition :=
  s.exhibitions.find? (fun e => e.id == i)

end ExhibitionCRUD

namespace InstallationPhotoCRUD

/-- crud.py 32-34 instantiated at InstallationPhoto. -/
def get_by_id (s : DBState) (i : String) : Option InstallationPhoto :=
  s.photos.find? (fun p => p.id == i)

end InstallationPhotoCRUD

namespace ArtworkAppearanceCRUD

/-- crud.py 32-34 instantiated at ArtworkAppearance. -/
def get_by_id (s : DBState) (i : String) : Option ArtworkAppearance :=
  s.appearances.find? (fun ap => ap.id == i)

end ArtworkAppearanceCRUD

/-- A write staged on a session (session.add in SQLAlchemy terms): inserting
one row into one of the four tables. -/
inductive DBWrite where
  | insertArtwork (a : Artwork)
  | insertExhibition (e : Exhibition)
  | insertPhoto (p : InstallationPhoto)
  | insertAppearance (ap : ArtworkAppearance)
  deriving Repr, DecidableEq

def applyWrite (s : DBState) : DBWrite → DBState
  | .insertArtwork a => { s with artworks := s.artworks ++ [a] }
  | .insertExhibition e => { s with exhibitions := s.exhibitions ++ [e] }
  | .insertPhoto p => { s with photos := s.photos ++ [p] }
  | .insertAppearance ap => { s with appearances := s.appearances ++ [ap] }

def applyWrites (s : DBState) (ws : List DBWrite) : DBState :=
  ws.foldl applyWrite s

/-- A live SQLAlchemy session: the committed database, the writes staged since
the last commit, and whether close() has run. -/
structure PySession where
  committed : DBState
  staged : List DBWrite
  closed : Bool
  deriving Repr, DecidableEq

namespace Database

/-- database.py 91-105, the get_db context manager.  The body is a function
from the freshly opened session to the session state it leaves behind plus the
error it raised, if any (none = the body completed).  commitErr / rollbackErr
say whether session.commit() / session.rollback() themselves raise at their
single call sites; none models the normal case.  Control flow mirrors the
Python try/except/finally: body, then commit; any error triggers rollback and
re-raising; close() runs last on every path. -/
def get_db (commitErr rollbackErr : Option String)
    (body : PySession → PySession × Option String) (init : DBState) :
    Option String × PySession :=
  let session : PySession := { committed := init, staged := [], closed := false }
  let res := body session
  match res.2 with
  | none =>
    match commitErr with
    | none =>
      (none, { committed := applyWrites res.1.committed res.1.staged,
               staged := [], closed := true })
    | some ce =>
      match rollbackErr with
      | none => (some ce, { committed := res.1.committed, staged := [], closed := true })
      | some re => (some re, { res.1 with closed := true })
  | some e =>
    match rollbackErr with
    | none => (some e, { committed := res.1.committed, staged := [], closed := true })
    | some re => (some re, { res.1 with closed := true })

end Database

/-- Claim C2: the get_db session scope commits the pending work of the session when
the body completes, rolls back all pending work and re-raises the same error
when the body raises, closes the session on every exit path (normal, error,
and after a commit or rollback failure), and a write staged before a mid-scope
error is absent from a subsequent fetch. -/
theorem C2_get_db_scope (commitErr rollbackErr : Option String)
    (body : PySession → PySession × Option String) (init : DBState)
    (s1 : PySession) (r : Option String)
    (hbody : body { committed := init, staged := [], closed := false } = (s1, r)) :
    (Database.get_db commitErr rollbackErr body init).2.closed = true
    ∧ (r = none → commitErr = none →
        Database.get_db commitErr rollbackErr body init
          = (none, { committed := applyWrites s1.committed s1.staged,
                     staged := [], closed := true }))
    ∧ (∀ e, r = some e → rollbackErr = none →
        Database.get_db commitErr rollbackErr body init
          = (some e, { committed := s1.committed, staged := [], closed := true }))
    ∧ (∀ (a : Artwork) (e : String) (s0 : DBState),
        ArtworkCRUD.get_by_id s0 a.id = none →
        (Database.get_db none none
            (fun s => ({ s with staged := s.staged ++ [DBWrite.insertArtwork a] }, some e))
            s0).1 = some e
        ∧ ArtworkCRUD.get_by_id
            (Database.get_db none none
              (fun s => ({ s with staged := s.staged ++ [DBWrite.insertArtwork a] }, some e))
              s0).2.committed a.id = none) := by
  refine ⟨?_, ?_, ?_, ?_⟩
  · simp only [Database.get_db, hbody]
    rcases r with _ | e
    · rcases commitErr with _ | ce
      · rfl
      · rcases rollbackErr with _ | re <;> rfl
    · rcases rollbackErr with _ | re <;> rfl
  · intro hr hc
    subst hr; subst hc
    simp [Database.get_db, hbody]
  · intro e hr hrb
    subst hr; subst hrb
    simp only [Database.get_db, hbody]
  · intro a e s0 h0
    exact ⟨rfl, h0⟩

/-- Witness for C2 at a concrete input: the trivial body on the empty
database, with commit and rollback succeeding. -/
theorem C2_get_db_scope_witness :
    (fun s : PySession => (s, (none : Option String)))
        { committed := emptyDB, staged := [], closed := false }
      = ({ committed := emptyDB, staged := [], closed := false }, none)
    ∧ (Database.get_db none none (fun s => (s, none)) emptyDB).2.closed = true :=
  ⟨rfl, (C2_get_db_scope none none (fun s => (s, none)) emptyDB
      { committed := emptyDB, staged := [], closed := false } none rfl).1⟩

/-- PersistenceError of the spec (§7): a write violating a schema invariant
(uniqueness, foreign key) surfaces as this error after rollback. -/
inductive PersistenceError where
  | integrityError
  deriving Repr, DecidableEq

namespace ArtworkCRUD

/-- crud.py 18-30 instantiated at Artwork.  The commit inside create enforces
the schema constraints of models.py: primary-key uniqueness of id and the
unique constraint on non-null catalog_number (models.py line 36).  On a
violation the session is rolled back (the state is returned unchanged) and
the error propagates; otherwise the row is inserted. -/
def create (s : DBState) (a : Artwork) : Option PersistenceError × DBState :=
  let violation :=
    s.artworks.any (fun x => x.id == a.id) ||
    (match a.catalog_number with
     | some c => s.artworks.any (fun x => x.catalog_number == some c)
     | none => false)
  if violation then (some PersistenceError.integrityError, s)
  else (none, { s with artworks := s.artworks ++ [a] })

end ArtworkCRUD

/-- Claim C3: when the state already holds an Artwork with non-null catalog
number c, creating a second Artwork with the same catalog number fails with a
PersistenceError, the session is rolled back (the state is returned
unchanged), and the first Artwork is still present. -/
theorem C3_create_duplicate_catalog_number (s : DBState) (a1 a2 : Artwork)
    (c : String) (hmem : a1 ∈ s.artworks)
    (h1 : a1.catalog_number = some c) (h2 : a2.catalog_number = some c) :
    ArtworkCRUD.create s a2 = (some PersistenceError.integrityError, s)
    ∧ a1 ∈ (ArtworkCRUD.create s a2).2.artworks := by
  have hany : s.artworks.any (fun x => x.catalog_number == some c) = true := by
    rw [List.any_eq_true]
    exact ⟨a1, hmem, by rw [h1]; exact beq_self_eq_true (some c)⟩
  have hcreate : ArtworkCRUD.create s a2 = (some PersistenceError.integrityError, s) := by
    simp [ArtworkCRUD.create, h2, hany]
  exact ⟨hcreate, by rw [hcreate]; exact hmem⟩

/-- Artwork used by concrete witnesses: all optional columns empty except
where overridden. -/
def mkArtwork (i t ar : String) (cat : Option String) (w : Option ℚ) : Artwork :=
  { id := i, title := t, artist := ar
    width := w, height := none, depth := none
    medium := none, materials := none, creation_date := none
    description := none, provenance := none
    catalog_number := cat, accession_number := none
    style := none, period := none, subject_matter := none
    reference_image_path := none, thumbnail_path := none
    visual_features := none, color_palette := none
    created_at := 0, updated_at := 0 }

/-- Witness for C3 at a concrete input: a state holding one artwork with
catalog number K; creating a second artwork with catalog number K fails and
leaves the first intact. -/
theorem C3_create_duplicate_catalog_number_witness :
    (mkArtwork "A1" "First" "X" (some "K") none)
        ∈ (DBState.mk [mkArtwork "A1" "First" "X" (some "K") none] [] [] []).artworks
    ∧ (mkArtwork "A1" "First" "X" (some "K") none).catalog_number = some "K"
    ∧ (mkArtwork "A2" "Second" "Y" (some "K") none).catalog_number = some "K"
    ∧ (ArtworkCRUD.create (DBState.mk [mkArtwork "A1" "First" "X" (some "K") none] [] [] [])
          (mkArtwork "A2" "Second" "Y" (some "K") none)
        = (some PersistenceError.integrityError,
           DBState.mk [mkArtwork "A1" "First" "X" (some "K") none] [] [] [])
      ∧ (mkArtwork "A1" "First" "X" (some "K") none)
          ∈ (ArtworkCRUD.create
              (DBState.mk [mkArtwork "A1" "First" "X" (some "K") none] [] [] [])
              (mkArtwork "A2" "Second" "Y" (some "K") none)).2.artworks) :=
  ⟨by decide, rfl, rfl,
   C3_create_duplicate_catalog_number _ _ _ "K" (by decide) rfl rfl⟩

/-- The column attributes of the Artwork model, used to state frame
properties of the generic update. -/
inductive AField where
  | id | title | artist | width | height | depth
  | medium | materials | creation_date | description | provenance
  | catalog_number | accession_number | style | period | subject_matter
  | reference_image_path | thumbnail_path | visual_features | color_palette
  | created_at | updated_at
  deriving Repr, DecidableEq

/-- Python attribute name of an Artwork column. -/
def AField.name : AField → String
  | .id => "id" | .title => "title" | .artist => "artist"
  | .width => "width" | .height => "height" | .depth => "depth"
  | .medium => "medium" | .materials => "materials"
  | .creation_date => "creation_date" | .description => "description"
  | .provenance => "provenance" | .catalog_number => "catalog_number"
  | .accession_number => "accession_number" | .style => "style"
  | .period => "period" | .subject_matter => "subject_matter"
  | .reference_image_path => "reference_image_path"
  | .thumbnail_path => "thumbnail_path" | .visual_features => "visual_features"
  | .color_palette => "color_palette" | .created_at => "created_at"
  | .updated_at => "updated_at"

/-- Value stored in one Artwork column (heterogeneous read result). -/
inductive FieldVal where
  | s (v : String)
  | os (v : Option String)
  | oq (v : Option ℚ)
  | n (v : Nat)
  deriving Repr, DecidableEq

/-- Read one column of an Artwork row. -/
def Artwork.get (a : Artwork) : AField → FieldVal
  | .id => .s a.id | .title => .s a.title | .artist => .s a.artist
  | .width => .oq a.width | .height => .oq a.height | .depth => .oq a.depth
  | .medium => .os a.medium | .materials => .os a.materials
  | .creation_date => .os a.creation_date | .description => .os a.description
  | .provenance => .os a.provenance | .catalog_number => .os a.catalog_number
  | .accession_number => .os a.accession_number | .style => .os a.style
  | .period => .os a.period | .subject_matter => .os a.subject_matter
  | .reference_image_path => .os a.reference_image_path
  | .thumbnail_path => .os a.thumbnail_path
  | .visual_features => .os a.visual_features
  | .color_palette => .os a.color_palette
  | .created_at => .n a.created_at | .updated_at => .n a.updated_at

/-- One keyword argument of BaseCRUD.update for the Artwork model: either a
column name with a value of the type of that column, or a name that is not an
attribute of the entity (its value is never read, so it is not carried). -/
inductive ArtworkFieldAssign where
  | id (v : String) | title (v : String) | artist (v : String)
  | width (v : Option ℚ) | height (v : Option ℚ) | depth (v : Option ℚ)
  | medium (v : Option String) | materials (v : Option String)
  | creation_date (v : Option String) | description (v : Option String)
  | provenance (v : Option String) | catalog_number (v : Option String)
  | accession_number (v : Option String) | style (v : Option String)
  | period (v : Option String) | subject_matter (v : Option String)
  | reference_image_path (v : Option String) | thumbnail_path (v : Option String)
  | visual_features (v : Option String) | color_palette (v : Option String)
  | created_at (v : Nat) | updated_at (v : Nat)
  | unrecognized (nm : String)
  deriving Repr, DecidableEq

/-- Column name targeted by a keyword argument; none when hasattr is false. -/
def assignTarget : ArtworkFieldAssign → Option String
  | .id _ => some "id" | .title _ => some "title" | .artist _ => some "artist"
  | .width _ => some "width" | .height _ => some "height" | .depth _ => some "depth"
  | .medium _ => some "medium" | .materials _ => some "materials"
  | .creation_date _ => some "creation_date" | .description _ => some "description"
  | .provenance _ => some "provenance" | .catalog_number _ => some "catalog_number"
  | .accession_number _ => some "accession_number" | .style _ => some "style"
  | .period _ => some "period" | .subject_matter _ => some "subject_matter"
  | .reference_image_path _ => some "reference_image_path"
  | .thumbnail_path _ => some "thumbnail_path"
  | .visual_features _ => some "visual_features"
  | .color_palette _ => some "color_palette"
  | .created_at _ => some "created_at" | .updated_at _ => some "updated_at"
  | .unrecognized _ => none

/-- hasattr(db_obj, key) for a keyword argument (crud.py line 48). -/
def recognizedAssign (asn : ArtworkFieldAssign) : Bool :=
  (assignTarget asn).isSome

/-- setattr(db_obj, key, value) when hasattr holds; a no-op on the row for an
unrecognized name (crud.py lines 47-49). -/
def applyAssign (a : Artwork) : ArtworkFieldAssign → Artwork
  | .id v => { a with id := v } | .title v => { a with title := v }
  | .artist v => { a with artist := v } | .width v => { a with width := v }
  | .height v => { a with height := v } | .depth v => { a with depth := v }
  | .medium v => { a with medium := v } | .materials v => { a with materials := v }
  | .creation_date v => { a with creation_date := v }
  | .description v => { a with description := v }
  | .provenance v => { a with provenance := v }
  | .catalog_number v => { a with catalog_number := v }
  | .accession_number v => { a with accession_number := v }
  | .style v => { a with style := v } | .period v => { a with period := v }
  | .subject_matter v => { a with subject_matter := v }
  | .reference_image_path v => { a with reference_image_path := v }
  | .thumbnail_path v => { a with thumbnail_path := v }
  | .visual_features v => { a with visual_features := v }
  | .color_palette v => { a with color_palette := v }
  | .created_at v => { a with created_at := v }
  | .updated_at v => { a with updated_at := v }
  | .unrecognized _ => a

/-- The onupdate refresh of updated_at that the commit applies when an UPDATE
is emitted (models.py line 54). -/
def touchUpdatedAt (a : Artwork) (now : Nat) : Artwork :=
  { a with updated_at := now }

namespace ArtworkCRUD

/-- crud.py 40-58 instantiated at Artwork.  The located row receives every
recognized keyword argument in order; the commit emits an UPDATE when at least
one column attribute was set, which also fires the onupdate refresh of
updated_at (models.py line 54) unless updated_at itself was assigned
explicitly; the refreshed entity and the new state are returned.  A missing
id yields (none, unchanged state). -/
def update (s : DBState) (i : String) (kwargs : List ArtworkFieldAssign)
    (now : Nat) : Option Artwork × DBState :=
  match ArtworkCRUD.get_by_id s i with
  | none => (none, s)
  | some a =>
    let a1 := kwargs.foldl applyAssign a
    let dirty := kwargs.any recognizedAssign
    let touches := kwargs.any (fun asn => assignTarget asn == some "updated_at")
    let a2 := if dirty && !touches then touchUpdatedAt a1 now else a1
    (some a2,
     { s with artworks := s.artworks.map (fun x => if x.id == i then a2 else x) })

end ArtworkCRUD

theorem applyAssign_get (a : Artwork) (asn : ArtworkFieldAssign) (f : AField)
    (h : assignTarget asn ≠ some f.name) :
    (applyAssign a asn).get f = a.get f := by
  cases asn <;> cases f <;> simp_all [applyAssign, Artwork.get, assignTarget, AField.name]

theorem foldl_applyAssign_get (kwargs : List ArtworkFieldAssign) (a : Artwork)
    (f : AField) (h : ∀ asn ∈ kwargs, assignTarget asn ≠ some f.name) :
    (kwargs.foldl applyAssign a).get f = a.get f := by
  induction kwargs generalizing a with
  | nil => rfl
  | cons asn rest ih =>
    rw [List.foldl_cons, ih (applyAssign a asn) (fun x hx => h x (List.mem_cons_of_mem _ hx)),
      applyAssign_get a asn f (h asn (List.mem_cons_self asn rest))]

theorem updated_at_set_get (a : Artwork) (now : Nat) (f : AField)
    (h : f ≠ AField.updated_at) :
    (touchUpdatedAt a now).get f = a.get f := by
  cases f <;> simp_all [Artwork.get, touchUpdatedAt]

theorem foldl_applyAssign_filter (kwargs : List ArtworkFieldAssign) (a : Artwork) :
    kwargs.foldl applyAssign a = (kwargs.filter recognizedAssign).foldl applyAssign a := by
  induction kwargs generalizing a with
  | nil => rfl
  | cons asn rest ih =>
    cases hrec : recognizedAssign asn with
    | true => rw [List.foldl_cons, List.filter_cons_of_pos hrec, List.foldl_cons, ih]
    | false =>
      have : applyAssign a asn = a := by
        cases asn <;> simp_all [recognizedAssign, assignTarget, applyAssign]
      rw [List.foldl_cons, this, List.filter_cons_of_neg (by simp [hrec]), ih]

theorem any_filter_self (kwargs : List ArtworkFieldAssign) :
    (kwargs.filter recognizedAssign).any recognizedAssign = kwargs.any recognizedAssign := by
  induction kwargs with
  | nil => rfl
  | cons asn rest ih =>
    cases hrec : recognizedAssign asn with
    | true => rw [List.filter_cons_of_pos hrec] ; simp [hrec, ih]
    | false => rw [List.filter_cons_of_neg (by simp [hrec])] ; simp [hrec, ih]

theorem any_touches_filter (kwargs : List ArtworkFieldAssign) :
    (kwargs.filter recognizedAssign).any (fun asn => assignTarget asn == some "updated_at")
      = kwargs.any (fun asn => assignTarget asn == some "updated_at") := by
  induction kwargs with
  | nil => rfl
  | cons asn rest ih =>
    cases hrec : recognizedAssign asn with
    | true => rw [List.filter_cons_of_pos hrec] ; simp [ih]
    | false =>
      have htouch : (assignTarget asn == some "updated_at") = false := by
        cases asn <;> simp_all [recognizedAssign, assignTarget]
      rw [List.filter_cons_of_neg (by simp [hrec])] ; simp [htouch, ih]

/-- Claim C4: the generic update applies exactly the supplied recognized
fields, silently ignores unrecognized field names (dropping them from the
call changes nothing), returns the updated entity with every untouched column
other than updated_at at its prior value (the artist example is computed in
full), and returns none with an unchanged state when id does not exist. -/
theorem C4_update_partial_fields (s : DBState) (i : String)
    (kwargs : List ArtworkFieldAssign) (now : Nat) :
    (ArtworkCRUD.get_by_id s i = none → ArtworkCRUD.update s i kwargs now = (none, s))
    ∧ ArtworkCRUD.update s i kwargs now
        = ArtworkCRUD.update s i (kwargs.filter recognizedAssign) now
    ∧ (∀ a v, ArtworkCRUD.get_by_id s i = some a →
        ArtworkCRUD.update s i [ArtworkFieldAssign.artist v] now
          = (some { a with artist := v, updated_at := now },
             { s with artworks := s.artworks.map (fun x =>
                 if x.id == i then { a with artist := v, updated_at := now } else x) }))
    ∧ (∀ a, ArtworkCRUD.get_by_id s i = some a →
        ∀ f : AField, f.name ∉ kwargs.filterMap assignTarget → f.name ≠ "updated_at" →
          (ArtworkCRUD.update s i kwargs now).1.map (fun r => r.get f)
            = some (a.get f)) := by
  refine ⟨?_, ?_, ?_, ?_⟩
  · intro h
    simp [ArtworkCRUD.update, h]
  · unfold ArtworkCRUD.update
    cases ArtworkCRUD.get_by_id s i with
    | none => rfl
    | some a =>
      simp only [foldl_applyAssign_filter kwargs a, any_filter_self, any_touches_filter]
  · intro a v h
    simp only [ArtworkCRUD.update, h]
    rfl
  · intro a h f hnotin hne
    have hasn : ∀ asn ∈ kwargs, assignTarget asn ≠ some f.name := by
      intro asn hmem hcontra
      exact hnotin (List.mem_filterMap.mpr ⟨asn, hmem, hcontra⟩)
    have hf : f ≠ AField.updated_at := by
      intro hcontra
      exact hne (by rw [hcontra]; rfl)
    have h1 : (ArtworkCRUD.update s i kwargs now).1
        = some (if kwargs.any recognizedAssign && !kwargs.any
              (fun asn => assignTarget asn == some "updated_at")
            then touchUpdatedAt (kwargs.foldl applyAssign a) now
            else kwargs.foldl applyAssign a) := by
      simp [ArtworkCRUD.update, h]
    rw [h1]
    cases hc : kwargs.any recognizedAssign && !kwargs.any
        (fun asn => assignTarget asn == some "updated_at") with
    | true =>
      rw [if_pos rfl]
      refine congrArg some ?_
      show (touchUpdatedAt (kwargs.foldl applyAssign a) now).get f = a.get f
      rw [updated_at_set_get _ _ _ hf, foldl_applyAssign_get kwargs a f hasn]
    | false =>
      rw [if_neg (by decide)]
      exact congrArg some (foldl_applyAssign_get kwargs a f hasn)

/-- Witness for C4 at a concrete input: a one-artwork state updated with
artist set to New Name at time 5. -/
theorem C4_update_partial_fields_witness :
    ArtworkCRUD.get_by_id (DBState.mk [mkArtwork "A" "T" "R" none none] [] [] []) "A"
        = some (mkArtwork "A" "T" "R" none none)
    ∧ ArtworkCRUD.update (DBState.mk [mkArtwork "A" "T" "R" none none] [] [] []) "A"
        [ArtworkFieldAssign.artist "New Name"] 5
      = (some { mkArtwork "A" "T" "R" none none with artist := "New Name", updated_at := 5 },
         { DBState.mk [mkArtwork "A" "T" "R" none none] [] [] [] with
           artworks := (DBState.mk [mkArtwork "A" "T" "R" none none] [] [] []).artworks.map
             (fun x => if x.id == "A"
               then { mkArtwork "A" "T" "R" none none with artist := "New Name", updated_at := 5 }
               else x) }) :=
  ⟨by decide,
   (C4_update_partial_fields (DBState.mk [mkArtwork "A" "T" "R" none none] [] [] []) "A"
       [ArtworkFieldAssign.artist "New Name"] 5).2.2.1
     (mkArtwork "A" "T" "R" none none) "New Name" (by decide)⟩

/-- Claim C6 counterexample: update recognizes id as an entity attribute
(hasattr is true), so update(id, id := "B") changes the stored identifier:
the returned entity has id B, and the record is no longer fetchable as A. -/
theorem C6_counterexample_update_changes_id :
    (ArtworkCRUD.update (DBState.mk [mkArtwork "A" "T" "R" none none] [] [] []) "A"
        [ArtworkFieldAssign.id "B"] 1).1.map (fun r => r.id) = some "B"
    ∧ ArtworkCRUD.get_by_id
        (ArtworkCRUD.update (DBState.mk [mkArtwork "A" "T" "R" none none] [] [] []) "A"
          [ArtworkFieldAssign.id "B"] 1).2 "A" = none := by
  constructor <;> decide

/-- Claim C6 (amended): the generated identifier is unchanged by every
generic update whose field set does not assign id; only an update explicitly
supplying id as a field can change it. -/
theorem C6_id_immutable_without_id_field (s : DBState) (i : String)
    (kwargs : List ArtworkFieldAssign) (now : Nat) (a : Artwork)
    (hfind : ArtworkCRUD.get_by_id s i = some a)
    (hnoid : ∀ asn ∈ kwargs, assignTarget asn ≠ some "id") :
    (ArtworkCRUD.update s i kwargs now).1.map (fun r => r.id) = some a.id := by
  have hid : (kwargs.foldl applyAssign a).id = a.id :=
    FieldVal.s.inj (foldl_applyAssign_get kwargs a AField.id hnoid)
  have h1 : (ArtworkCRUD.update s i kwargs now).1
      = some (if kwargs.any recognizedAssign && !kwargs.any
            (fun asn => assignTarget asn == some "updated_at")
          then touchUpdatedAt (kwargs.foldl applyAssign a) now
          else kwargs.foldl applyAssign a) := by
    simp [ArtworkCRUD.update, hfind]
  rw [h1]
  cases hc : kwargs.any recognizedAssign && !kwargs.any
      (fun asn => assignTarget asn == some "updated_at") with
  | true => rw [if_pos rfl]; exact congrArg some hid
  | false => rw [if_neg (by decide)]; exact congrArg some hid

/-- Witness for the amended C6 at a concrete input: updating only the artist
leaves the identifier A in place. -/
theorem C6_id_immutable_without_id_field_witness :
    ArtworkCRUD.get_by_id (DBState.mk [mkArtwork "A" "T" "R" none none] [] [] []) "A"
        = some (mkArtwork "A" "T" "R" none none)
    ∧ (∀ asn ∈ [ArtworkFieldAssign.artist "New Name"], assignTarget asn ≠ some "id")
    ∧ (ArtworkCRUD.update (DBState.mk [mkArtwork "A" "T" "R" none none] [] [] []) "A"
        [ArtworkFieldAssign.artist "New Name"] 5).1.map (fun r => r.id) = some "A" :=
  ⟨by decide, by decide,
   C6_id_immutable_without_id_field (DBState.mk [mkArtwork "A" "T" "R" none none] [] [] [])
     "A" [ArtworkFieldAssign.artist "New Name"] 5 (mkArtwork "A" "T" "R" none none)
     (by decide) (by decide)⟩

namespace ExhibitionCRUD

/-- crud.py 60-74 instantiated at Exhibition.  db.delete on an Exhibition
triggers the ORM cascades of models.py: Exhibition.photos carries
cascade all, delete-orphan (line 97), and the
artwork_appearances relationship of each InstallationPhoto carries the same cascade (line 148), so the commit
removes the exhibition row, its photos, and the appearances of those photos.
A missing id returns false with the state unchanged. -/
def delete (s : DBState) (eid : String) : Bool × DBState :=
  match ExhibitionCRUD.get_by_id s eid with
  | none => (false, s)
  | some _ =>
    let deadPhotoIds :=
      (s.photos.filter (fun p => p.exhibition_id == eid)).map (fun p => p.id)
    (true,
     { s with
       exhibitions := s.exhibitions.filter (fun e => !(e.id == eid))
       photos := s.photos.filter (fun p => !(p.exhibition_id == eid))
       appearances := s.appearances.filter
         (fun ap => !(deadPhotoIds.contains ap.photo_id)) })

end ExhibitionCRUD

/-- Claim C5: deleting an Exhibition returns true and removes the exhibition,
every installation photo attached to it, and every appearance attached to
those photos — all of them unfetchable by id afterwards — while deleting a
non-existent id returns false and changes nothing. -/
theorem C5_delete_cascade (s : DBState) (eid : String) (hwf : s.wf) :
    (ExhibitionCRUD.get_by_id s eid = none →
      ExhibitionCRUD.delete s eid = (false, s))
    ∧ (∀ e, ExhibitionCRUD.get_by_id s eid = some e →
        (ExhibitionCRUD.delete s eid).1 = true
        ∧ ExhibitionCRUD.get_by_id (ExhibitionCRUD.delete s eid).2 eid = none
        ∧ (∀ p ∈ s.photos, p.exhibition_id = eid →
            InstallationPhotoCRUD.get_by_id (ExhibitionCRUD.delete s eid).2 p.id = none)
        ∧ (∀ ap ∈ s.appearances, ∀ p ∈ s.photos,
            p.exhibition_id = eid → ap.photo_id = p.id →
            ArtworkAppearanceCRUD.get_by_id (ExhibitionCRUD.delete s eid).2 ap.id
              = none)) := by
  constructor
  · intro h
    simp [ExhibitionCRUD.delete, h]
  · intro e he
    have hd : ExhibitionCRUD.delete s eid
        = (true,
           { s with
             exhibitions := s.exhibitions.filter (fun x => !(x.id == eid))
             photos := s.photos.filter (fun p => !(p.exhibition_id == eid))
             appearances := s.appearances.filter (fun ap =>
               !(((s.photos.filter (fun p => p.exhibition_id == eid)).map
                   (fun p => p.id)).contains ap.photo_id)) }) := by
      simp [ExhibitionCRUD.delete, he]
    refine ⟨by rw [hd], ?_, ?_, ?_⟩
    · rw [hd]
      simp only [ExhibitionCRUD.get_by_id, List.find?_eq_none]
      intro x hx
      rw [List.mem_filter] at hx
      simp only [Bool.not_eq_eq_eq_not, Bool.not_true] at hx
      simp [hx.2]
    · intro p hp hpe
      rw [hd]
      simp only [InstallationPhotoCRUD.get_by_id, List.find?_eq_none]
      intro q hq
      rw [List.mem_filter] at hq
      intro hqid
      rw [beq_iff_eq] at hqid
      have : q = p := List.inj_on_of_nodup_map hwf.2.2.1 hq.1 hp hqid
      subst this
      rw [hpe] at hq
      simp at hq
    · intro ap hap p hp hpe hphoto
      rw [hd]
      simp only [ArtworkAppearanceCRUD.get_by_id, List.find?_eq_none]
      intro b hb
      rw [List.mem_filter] at hb
      intro hbid
      rw [beq_iff_eq] at hbid
      have hbap : b = ap := List.inj_on_of_nodup_map hwf.2.2.2 hb.1 hap hbid
      subst hbap
      have hpmem : p.id ∈ (s.photos.filter (fun q => q.exhibition_id == eid)).map
          (fun q => q.id) :=
        List.mem_map_of_mem _ (List.mem_filter.mpr ⟨hp, by simp [hpe]⟩)
      have hcont : ((s.photos.filter (fun q => q.exhibition_id == eid)).map
          (fun q => q.id)).contains p.id = true := by
        rw [List.contains_iff_exists_mem_beq]
        exact ⟨p.id, hpmem, by simp⟩
      have hfalse := hb.2
      rw [hphoto] at hfalse
      simp only [Bool.not_eq_eq_eq_not, Bool.not_true] at hfalse
      rw [hcont] at hfalse
      exact Bool.noConfusion hfalse

/-- Exhibition used by concrete witnesses. -/
def mkExhibition (i nm mu : String) : Exhibition :=
  { id := i, name := nm, museum := mu
    gallery := none, city := none, country := none
    start_date := none, end_date := none
    curator := none, description := none, type := none
    catalog_published := false, catalog_isbn := none, website_url := none
    created_at := 0, updated_at := 0 }

/-- Installation photo used by concrete witnesses. -/
def mkPhoto (i eid path : String) : InstallationPhoto :=
  { id := i, exhibition_id := eid, image_path := path
    original_filename := none, file_size := none
    width := none, height := none, format := none
    camera_make := none, camera_model := none
    capture_date := none, photographer := none
    processed := false, processing_date := none, detection_results := none
    room := none, wall := none, view_type := none
    notes := none, quality_score := none
    created_at := 0, updated_at := 0 }

/-- Appearance used by concrete witnesses. -/
def mkAppearance (i aid pid : String) : ArtworkAppearance :=
  { id := i, artwork_id := aid, photo_id := pid
    bbox_x := 0, bbox_y := 0, bbox_width := 1, bbox_height := 1
    detection_confidence := 1, matching_confidence := 1
    verified := false, verified_by := none, verification_date := none
    cropped_image_path := none, features := none
    visible_percentage := none, occlusion_level := none, lighting_quality := none
    notes := none, created_at := 0, updated_at := 0 }

/-- Concrete state for the C5 witness: one exhibition with two photos and one
appearance on each photo. -/
def dbC5 : DBState :=
  { artworks := []
    exhibitions := [mkExhibition "E" "Show" "Museum"]
    photos := [mkPhoto "P1" "E" "/a.jpg", mkPhoto "P2" "E" "/b.jpg"]
    appearances := [mkAppearance "AP1" "A" "P1", mkAppearance "AP2" "A" "P2"] }

/-- Witness for C5 at a concrete input: deleting exhibition E removes it,
both photos, and both appearances. -/
theorem C5_delete_cascade_witness :
    dbC5.wf
    ∧ ExhibitionCRUD.get_by_id dbC5 "E" = some (mkExhibition "E" "Show" "Museum")
    ∧ (ExhibitionCRUD.delete dbC5 "E").1 = true
    ∧ ExhibitionCRUD.get_by_id (ExhibitionCRUD.delete dbC5 "E").2 "E" = none
    ∧ InstallationPhotoCRUD.get_by_id (ExhibitionCRUD.delete dbC5 "E").2
        (mkPhoto "P1" "E" "/a.jpg").id = none
    ∧ InstallationPhotoCRUD.get_by_id (ExhibitionCRUD.delete dbC5 "E").2
        (mkPhoto "P2" "E" "/b.jpg").id = none
    ∧ ArtworkAppearanceCRUD.get_by_id (ExhibitionCRUD.delete dbC5 "E").2
        (mkAppearance "AP1" "A" "P1").id = none
    ∧ ArtworkAppearanceCRUD.get_by_id (ExhibitionCRUD.delete dbC5 "E").2
        (mkAppearance "AP2" "A" "P2").id = none :=
  ⟨by decide, by decide,
   ((C5_delete_cascade dbC5 "E" (by decide)).2 (mkExhibition "E" "Show" "Museum")
       (by decide)).1,
   ((C5_delete_cascade dbC5 "E" (by decide)).2 (mkExhibition "E" "Show" "Museum")
       (by decide)).2.1,
   ((C5_delete_cascade dbC5 "E" (by decide)).2 (mkExhibition "E" "Show" "Museum")
       (by decide)).2.2.1 (mkPhoto "P1" "E" "/a.jpg") (by decide) (by decide),
   ((C5_delete_cascade dbC5 "E" (by decide)).2 (mkExhibition "E" "Show" "Museum")
       (by decide)).2.2.1 (mkPhoto "P2" "E" "/b.jpg") (by decide) (by decide),
   ((C5_delete_cascade dbC5 "E" (by decide)).2 (mkExhibition "E" "Show" "Museum")
       (by decide)).2.2.2 (mkAppearance "AP1" "A" "P1") (by decide)
     (mkPhoto "P1" "E" "/a.jpg") (by decide) (by decide) (by decide),
   ((C5_delete_cascade dbC5 "E" (by decide)).2 (mkExhibition "E" "Show" "Museum")
       (by decide)).2.2.2 (mkAppearance "AP2" "A" "P2") (by decide)
     (mkPhoto "P2" "E" "/b.jpg") (by decide) (by decide) (by decide)⟩

/-- SQL comparison column >= bound: NULL compares to nothing, so a NULL
column never satisfies the predicate. -/
def sqlGeOpt (x : Option ℚ) (b : ℚ) : Bool :=
  match x with
  | none => false
  | some v => decide (b ≤ v)

/-- SQL comparison column <= bound, with the same NULL semantics. -/
def sqlLeOpt (x : Option ℚ) (b : ℚ) : Bool :=
  match x with
  | none => false
  | some v => decide (v ≤ b)

/-- One conditional filter stage of a query: applied only when the bound was
supplied (crud.py 110-117, the four `if ... is not None` guards). -/
def optFilter (q : List Artwork) (o : Option ℚ) (pred : Artwork → ℚ → Bool) :
    List Artwork :=
  match o with
  | some b => q.filter (fun a => pred a b)
  | none => q

theorem mem_of_optFilter {q : List Artwork} {o : Option ℚ}
    {pred : Artwork → ℚ → Bool} {a : Artwork} (h : a ∈ optFilter q o pred) :
    a ∈ q := by
  cases o with
  | none => exact h
  | some b => exact List.mem_of_mem_filter h

theorem pred_of_mem_optFilter {q : List Artwork} {b : ℚ}
    {pred : Artwork → ℚ → Bool} {x : Artwork}
    (h : x ∈ optFilter q (some b) pred) : pred x b = true := by
  have h' : x ∈ q.filter (fun y => pred y b) := h
  exact (List.mem_filter.mp h').2

theorem mem_optFilter_of_mem {q : List Artwork} {b : ℚ}
    {pred : Artwork → ℚ → Bool} {x : Artwork} (h : x ∈ q)
    (hp : pred x b = true) : x ∈ optFilter q (some b) pred :=
  show x ∈ q.filter (fun y => pred y b) from List.mem_filter.mpr ⟨h, hp⟩

namespace ArtworkCRUD

/-- crud.py 105-119: the query starts from all artworks and chains one filter
per supplied bound, each an inclusive SQL comparison on width or height. -/
def search_by_dimensions (s : DBState)
    (min_width max_width min_height max_height : Option ℚ) : List Artwork :=
  optFilter
    (optFilter
      (optFilter
        (optFilter s.artworks min_width (fun a b => sqlGeOpt a.width b))
        max_width (fun a b => sqlLeOpt a.width b))
      min_height (fun a b => sqlGeOpt a.height b))
    max_height (fun a b => sqlLeOpt a.height b)

end ArtworkCRUD

/-- Claim C9: every supplied bound of search_by_dimensions is optional and
inclusive: a min_width bound excludes artworks with a strictly smaller width
and keeps artworks whose width equals the bound exactly, and likewise for
max_width, min_height and max_height; with no bounds supplied the query
returns all artworks. -/
theorem C9_search_by_dimensions_inclusive (s : DBState) (a : Artwork) (b : ℚ)
    (o1 o2 o3 : Option ℚ) :
    (∀ w, a.width = some w → w < b →
      a ∉ ArtworkCRUD.search_by_dimensions s (some b) o1 o2 o3)
    ∧ (a ∈ s.artworks → a.width = some b →
      a ∈ ArtworkCRUD.search_by_dimensions s (some b) none none none)
    ∧ (∀ w, a.width = some w → b < w →
      a ∉ ArtworkCRUD.search_by_dimensions s o1 (some b) o2 o3)
    ∧ (a ∈ s.artworks → a.width = some b →
      a ∈ ArtworkCRUD.search_by_dimensions s none (some b) none none)
    ∧ (∀ h, a.height = some h → h < b →
      a ∉ ArtworkCRUD.search_by_dimensions s o1 o2 (some b) o3)
    ∧ (a ∈ s.artworks → a.height = some b →
      a ∈ ArtworkCRUD.search_by_dimensions s none none (some b) none)
    ∧ (∀ h, a.height = some h → b < h →
      a ∉ ArtworkCRUD.search_by_dimensions s o1 o2 o3 (some b))
    ∧ (a ∈ s.artworks → a.height = some b →
      a ∈ ArtworkCRUD.search_by_dimensions s none none none (some b))
    ∧ ArtworkCRUD.search_by_dimensions s none none none none = s.artworks := by
  refine ⟨?_, ?_, ?_, ?_, ?_, ?_, ?_, ?_, rfl⟩
  · intro w hw hlt hmem
    have h1 := mem_of_optFilter (mem_of_optFilter (mem_of_optFilter hmem))
    have h2 := pred_of_mem_optFilter h1
    rw [hw] at h2
    simp only [sqlGeOpt, decide_eq_true_eq] at h2
    exact absurd h2 (not_le.mpr hlt)
  · intro hmem hw
    exact mem_optFilter_of_mem hmem (by simp [sqlGeOpt, hw])
  · intro w hw hlt hmem
    have h1 := pred_of_mem_optFilter (mem_of_optFilter (mem_of_optFilter hmem))
    rw [hw] at h1
    simp only [sqlLeOpt, decide_eq_true_eq] at h1
    exact absurd h1 (not_le.mpr hlt)
  · intro hmem hw
    exact mem_optFilter_of_mem hmem (by simp [sqlLeOpt, hw])
  · intro h hh hlt hmem
    have h1 := pred_of_mem_optFilter (mem_of_optFilter hmem)
    rw [hh] at h1
    simp only [sqlGeOpt, decide_eq_true_eq] at h1
    exact absurd h1 (not_le.mpr hlt)
  · intro hmem hh
    exact mem_optFilter_of_mem hmem (by simp [sqlGeOpt, hh])
  · intro h hh hlt hmem
    have h1 := pred_of_mem_optFilter hmem
    rw [hh] at h1
    simp only [sqlLeOpt, decide_eq_true_eq] at h1
    exact absurd h1 (not_le.mpr hlt)
  · intro hmem hh
    exact mem_optFilter_of_mem hmem (by simp [sqlLeOpt, hh])

/-- Witness for C9 at a concrete input: width 40 is excluded by min_width 50,
width exactly 50 is included. -/
theorem C9_search_by_dimensions_inclusive_witness :
    ((mkArtwork "A1" "T" "R" none (some 40)).width = some 40 ∧ (40 : ℚ) < 50
      ∧ (mkArtwork "A1" "T" "R" none (some 40))
          ∉ ArtworkCRUD.search_by_dimensions
              (DBState.mk [mkArtwork "A1" "T" "R" none (some 40),
                mkArtwork "A2" "T" "R" none (some 50)] [] [] [])
              (some 50) none none none)
    ∧ ((mkArtwork "A2" "T" "R" none (some 50))
          ∈ (DBState.mk [mkArtwork "A1" "T" "R" none (some 40),
              mkArtwork "A2" "T" "R" none (some 50)] [] [] []).artworks
      ∧ (mkArtwork "A2" "T" "R" none (some 50))
          ∈ ArtworkCRUD.search_by_dimensions
              (DBState.mk [mkArtwork "A1" "T" "R" none (some 40),
                mkArtwork "A2" "T" "R" none (some 50)] [] [] [])
              (some 50) none none none) :=
  ⟨⟨rfl, by norm_num,
    (C9_search_by_dimensions_inclusive
        (DBState.mk [mkArtwork "A1" "T" "R" none (some 40),
          mkArtwork "A2" "T" "R" none (some 50)] [] [] [])
        (mkArtwork "A1" "T" "R" none (some 40)) 50 none none none).1
      40 rfl (by norm_num)⟩,
   ⟨by decide,
    (C9_search_by_dimensions_inclusive
        (DBState.mk [mkArtwork "A1" "T" "R" none (some 40),
          mkArtwork "A2" "T" "R" none (some 50)] [] [] [])
        (mkArtwork "A2" "T" "R" none (some 50)) 50 none none none).2.1
      (by decide) rfl⟩⟩

/-- Claim C10: an Artwork whose width is NULL is excluded by any call that
supplies min_width or max_width (and a NULL height by any height bound),
because the SQL comparison with NULL is never satisfied; with no bound on
that dimension the artwork can be returned. -/
theorem C10_search_by_dimensions_null_excluded (s : DBState) (a : Artwork)
    (b : ℚ) (o1 o2 o3 : Option ℚ) :
    (a.width = none → a ∉ ArtworkCRUD.search_by_dimensions s (some b) o1 o2 o3)
    ∧ (a.width = none → a ∉ ArtworkCRUD.search_by_dimensions s o1 (some b) o2 o3)
    ∧ (a.height = none → a ∉ ArtworkCRUD.search_by_dimensions s o1 o2 (some b) o3)
    ∧ (a.height = none → a ∉ ArtworkCRUD.search_by_dimensions s o1 o2 o3 (some b))
    ∧ (a ∈ s.artworks →
      a ∈ ArtworkCRUD.search_by_dimensions s none none none none) := by
  refine ⟨?_, ?_, ?_, ?_, fun h => h⟩
  · intro hw hmem
    have h1 := pred_of_mem_optFilter
      (mem_of_optFilter (mem_of_optFilter (mem_of_optFilter hmem)))
    rw [hw] at h1
    exact Bool.noConfusion h1
  · intro hw hmem
    have h1 := pred_of_mem_optFilter (mem_of_optFilter (mem_of_optFilter hmem))
    rw [hw] at h1
    exact Bool.noConfusion h1
  · intro hh hmem
    have h1 := pred_of_mem_optFilter (mem_of_optFilter hmem)
    rw [hh] at h1
    exact Bool.noConfusion h1
  · intro hh hmem
    have h1 := pred_of_mem_optFilter hmem
    rw [hh] at h1
    exact Bool.noConfusion h1

/-- Witness for C10 at a concrete input: a NULL-width artwork is excluded by
min_width 50 but returned when no bound is supplied. -/
theorem C10_search_by_dimensions_null_excluded_witness :
    ((mkArtwork "A0" "T" "R" none none).width = none
      ∧ (mkArtwork "A0" "T" "R" none none)
          ∉ ArtworkCRUD.search_by_dimensions
              (DBState.mk [mkArtwork "A0" "T" "R" none none] [] [] [])
              (some 50) none none none)
    ∧ ((mkArtwork "A0" "T" "R" none none)
          ∈ (DBState.mk [mkArtwork "A0" "T" "R" none none] [] [] []).artworks
      ∧ (mkArtwork "A0" "T" "R" none none)
          ∈ ArtworkCRUD.search_by_dimensions
              (DBState.mk [mkArtwork "A0" "T" "R" none none] [] [] [])
              none none none none) :=
  ⟨⟨rfl,
    (C10_search_by_dimensions_null_excluded
        (DBState.mk [mkArtwork "A0" "T" "R" none none] [] [] [])
        (mkArtwork "A0" "T" "R" none none) 50 none none none).1 rfl⟩,
   ⟨by decide,
    (C10_search_by_dimensions_null_excluded
        (DBState.mk [mkArtwork "A0" "T" "R" none none] [] [] [])
        (mkArtwork "A0" "T" "R" none none) 50 none none none).2.2.2.2
      (by decide)⟩⟩

/-- Left-to-right non-overlapping replacement of a non-empty pattern
p :: ps by rep, as CPython str.replace performs it.  The fuel argument (one
unit per consumed character, initially the string length) only makes the
recursion structural; it never runs out on the initial call. -/
def pyReplaceAux (p : Char) (ps rep : List Char) : Nat → List Char → List Char
  | _, [] => []
  | 0, l => l
  | fuel + 1, c :: rest =>
    if (c :: rest).take (p :: ps).length = p :: ps then
      rep ++ pyReplaceAux p ps rep fuel (rest.drop ps.length)
    else c :: pyReplaceAux p ps rep fuel rest

/-- CPython str.replace(old, new): for an empty old, new is inserted before
every character and at the end; otherwise every non-overlapping occurrence of
old is replaced by new, scanning left to right. -/
def pyReplace (s pat rep : String) : String :=
  match pat.toList with
  | [] =>
    String.mk (rep.toList ++ (s.toList.foldr (fun c acc => c :: (rep.toList ++ acc)) []))
  | p :: ps => String.mk (pyReplaceAux p ps rep.toList s.toList.length s.toList)

namespace Database

/-- database.py line 179, the url field of get_db_info: the engine URL string
with str(engine.url.password) if engine.url.password else "" replaced by
three asterisks.  A missing (or empty, hence falsy) password makes the
pattern the empty string. -/
def redact_url (url : String) (password : Option String) : String :=
  pyReplace url
    (match password with
     | some p => if p = "" then "" else p
     | none => "")
    "***"

end Database

/-- Claim C7 (code bug evidence): for an engine URL with no password, the
reported url string is not the URL unchanged — replacing the empty string
inserts the three-asterisk mask at every character boundary, mangling the
whole string. -/
theorem C7_redact_url_mangles_passwordless :
    Database.redact_url "sqlite:///db" none
        = "***s***q***l***i***t***e***:***/***/***/***d***b***"
    ∧ Database.redact_url "sqlite:///db" none ≠ "sqlite:///db"
    ∧ Database.redact_url "postgresql://u:pw@h:5/db" (some "pw")
        = "postgresql://u:***@h:5/db" := by
  refine ⟨by decide, by decide, by decide⟩

namespace ArtworkCRUD

/-- crud.py 97-99: first artwork whose catalog_number equals the argument. -/
def get_by_catalog_number (s : DBState) (c : String) : Option Artwork :=
  s.artworks.find? (fun a => a.catalog_number == some c)

end ArtworkCRUD

namespace ExhibitionCRUD

/-- crud.py 132-137, exact = True branch: exhibitions whose name equals the
argument exactly. -/
def search_by_name_exact (s : DBState) (n : String) : List Exhibition :=
  s.exhibitions.filter (fun e => e.name == n)

/-- crud.py 18-30 instantiated at Exhibition: the only schema constraint on
the exhibitions table is primary-key uniqueness of id. -/
def create (s : DBState) (e : Exhibition) : Option PersistenceError × DBState :=
  if s.exhibitions.any (fun x => x.id == e.id)
  then (some PersistenceError.integrityError, s)
  else (none, { s with exhibitions := s.exhibitions ++ [e] })

end ExhibitionCRUD

namespace InstallationPhotoCRUD

/-- crud.py 173-177: all photos of one exhibition. -/
def get_by_exhibition (s : DBState) (eid : String) : List InstallationPhoto :=
  s.photos.filter (fun p => p.exhibition_id == eid)

/-- crud.py 18-30 instantiated at InstallationPhoto: primary-key uniqueness
of id plus the foreign key exhibition_id → exhibitions.id
(models.py line 110). -/
def create (s : DBState) (p : InstallationPhoto) : Option PersistenceError × DBState :=
  if s.photos.any (fun x => x.id == p.id)
      || !(s.exhibitions.any (fun e => e.id == p.exhibition_id))
  then (some PersistenceError.integrityError, s)
  else (none, { s with photos := s.photos ++ [p] })

end InstallationPhotoCRUD

namespace ArtworkAppearanceCRUD

/-- crud.py 233-237: all appearances in one photo. -/
def get_by_photo (s : DBState) (pid : String) : List ArtworkAppearance :=
  s.appearances.filter (fun ap => ap.photo_id == pid)

/-- crud.py 18-30 instantiated at ArtworkAppearance: primary-key uniqueness
of id plus the foreign keys artwork_id → artworks.id and
photo_id → installation_photos.id (models.py lines 161-162). -/
def create (s : DBState) (ap : ArtworkAppearance) : Option PersistenceError × DBState :=
  if s.appearances.any (fun x => x.id == ap.id)
      || !(s.artworks.any (fun a => a.id == ap.artwork_id))
      || !(s.photos.any (fun p => p.id == ap.photo_id))
  then (some PersistenceError.integrityError, s)
  else (none, { s with appearances := s.appearances ++ [ap] })

end ArtworkAppearanceCRUD

/-- Sample artwork of database_setup.py lines 70-80 (The Starry Night); the
generated uuid and the commit timestamp are parameters. -/
def sampleArtwork (i : String) (now : Nat) : Artwork :=
  { id := i, title := "The Starry Night", artist := "Vincent van Gogh"
    width := some (737/10), height := some (921/10), depth := none
    medium := some "Oil on canvas", materials := none
    creation_date := some "1889"
    description := some "A swirling night sky over a village"
    provenance := none
    catalog_number := some "MoMA-472.1941", accession_number := none
    style := none, period := none, subject_matter := none
    reference_image_path := none, thumbnail_path := none
    visual_features := none, color_palette := none
    created_at := now, updated_at := now }

/-- Sample exhibition of database_setup.py lines 89-101; dates are encoded
as numeric day stamps. -/
def sampleExhibition (i : String) (now : Nat) : Exhibition :=
  { id := i, name := "Van Gogh and the Colors of the Night"
    museum := "Museum of Modern Art"
    gallery := some "Gallery 2", city := some "New York", country := some "USA"
    start_date := some 20231001, end_date := some 20240115
    curator := some "Dr. Sarah Johnson"
    description := some "An exploration of nocturnal masterpieces"
    type := some "temporary"
    catalog_published := false, catalog_isbn := none, website_url := none
    created_at := now, updated_at := now }

/-- Sample installation photo of database_setup.py lines 116-128. -/
def samplePhoto (i eid : String) (now : Nat) : InstallationPhoto :=
  { id := i, exhibition_id := eid
    image_path := "/data/raw/exhibition_photo_001.jpg"
    original_filename := some "exhibition_photo_001.jpg"
    file_size := none, width := some 1920, height := some 1080
    format := some "jpg"
    camera_make := none, camera_model := none
    capture_date := some 20231015
    photographer := some "Museum Documentation Team"
    processed := false, processing_date := none, detection_results := none
    room := some "Gallery 2", wall := none, view_type := some "overview"
    notes := none, quality_score := none
    created_at := now, updated_at := now }

/-- Sample artwork appearance of database_setup.py lines 143-156. -/
def sampleAppearance (i aid pid : String) (now : Nat) : ArtworkAppearance :=
  { id := i, artwork_id := aid, photo_id := pid
    bbox_x := 1/5, bbox_y := 3/10, bbox_width := 2/5, bbox_height := 1/2
    detection_confidence := 19/20, matching_confidence := 87/100
    verified := false, verified_by := none, verification_date := none
    cropped_image_path := none, features := none
    visible_percentage := some (17/20)
    occlusion_level := some "none", lighting_quality := some "good"
    notes := none, created_at := now, updated_at := now }

/-- database_setup.py 130-156: reuse the appearance linking this artwork to
this photo when one exists, otherwise create it; a create failure aborts the
routine with False. -/
def appearanceStep (idAp : String) (now : Nat) (artwork : Artwork)
    (photo : InstallationPhoto) (s : DBState) : Bool × DBState :=
  match (ArtworkAppearanceCRUD.get_by_photo s photo.id).find?
      (fun ap => ap.artwork_id == artwork.id) with
  | some _ => (true, s)
  | none =>
    match ArtworkAppearanceCRUD.create s (sampleAppearance idAp artwork.id photo.id now) with
    | (some _, s1) => (false, s1)
    | (none, s1) => (true, s1)

/-- database_setup.py 103-128: reuse the photo with the sample filename in
this exhibition when one exists, otherwise create it, then continue with the
appearance step. -/
def photoStep (idP idAp : String) (now : Nat) (artwork : Artwork)
    (exhibition : Exhibition) (s : DBState) : Bool × DBState :=
  match (InstallationPhotoCRUD.get_by_exhibition s exhibition.id).find?
      (fun p => p.original_filename == some "exhibition_photo_001.jpg") with
  | some photo => appearanceStep idAp now artwork photo s
  | none =>
    match InstallationPhotoCRUD.create s (samplePhoto idP exhibition.id now) with
    | (some _, s1) => (false, s1)
    | (none, s1) => appearanceStep idAp now artwork (samplePhoto idP exhibition.id now) s1

/-- database_setup.py 82-101: reuse the exhibition with the exact sample name
when one exists, otherwise create it, then continue with the photo step. -/
def exhibitionStep (idE idP idAp : String) (now : Nat) (artwork : Artwork)
    (s : DBState) : Bool × DBState :=
  match ExhibitionCRUD.search_by_name_exact s "Van Gogh and the Colors of the Night" with
  | e :: _ => photoStep idP idAp now artwork e s
  | [] =>
    match ExhibitionCRUD.create s (sampleExhibition idE now) with
    | (some _, s1) => (false, s1)
    | (none, s1) => photoStep idP idAp now artwork (sampleExhibition idE now) s1

/-- database_setup.py 50-168, create_sample_data: reuse the artwork with the
sample catalog number when one exists, otherwise create it, then run the
exhibition, photo, and appearance steps; the uuids generated for any created
rows and the commit timestamp are parameters. -/
def create_sample_data (idA idE idP idAp : String) (now : Nat) (s : DBState) :
    Bool × DBState :=
  match ArtworkCRUD.get_by_catalog_number s "MoMA-472.1941" with
  | some artwork => exhibitionStep idE idP idAp now artwork s
  | none =>
    match ArtworkCRUD.create s (sampleArtwork idA now) with
    | (some _, s1) => (false, s1)
    | (none, s1) => exhibitionStep idE idP idAp now (sampleArtwork idA now) s1

/-- The state produced by one successful run of the sample-data routine on an
empty database. -/
def sampleDB (idA idE idP idAp : String) (now : Nat) : DBState :=
  { artworks := [sampleArtwork idA now]
    exhibitions := [sampleExhibition idE now]
    photos := [samplePhoto idP idE now]
    appearances := [sampleAppearance idAp idA idP now] }

/-- Claim C8: the sample-data routine is idempotent: on an empty database the
first run succeeds and creates exactly one artwork, one exhibition, one photo
and one appearance, and a second run (with fresh candidate uuids and a fresh
timestamp) succeeds while reusing the existing rows, leaving the state
unchanged with exactly one row in each table. -/
theorem C8_create_sample_data_idempotent
    (i1 i2 i3 i4 j1 j2 j3 j4 : String) (n1 n2 : Nat) :
    create_sample_data i1 i2 i3 i4 n1 emptyDB = (true, sampleDB i1 i2 i3 i4 n1)
    ∧ create_sample_data j1 j2 j3 j4 n2 (sampleDB i1 i2 i3 i4 n1)
        = (true, sampleDB i1 i2 i3 i4 n1)
    ∧ (sampleDB i1 i2 i3 i4 n1).artworks.length = 1
    ∧ (sampleDB i1 i2 i3 i4 n1).exhibitions.length = 1
    ∧ (sampleDB i1 i2 i3 i4 n1).photos.length = 1
    ∧ (sampleDB i1 i2 i3 i4 n1).appearances.length = 1 := by
  refine ⟨?_, ?_, rfl, rfl, rfl, rfl⟩
  · simp [create_sample_data, exhibitionStep, photoStep, appearanceStep,
      ArtworkCRUD.get_by_catalog_number, ArtworkCRUD.create,
      ExhibitionCRUD.search_by_name_exact, ExhibitionCRUD.create,
      InstallationPhotoCRUD.get_by_exhibition, InstallationPhotoCRUD.create,
      ArtworkAppearanceCRUD.get_by_photo, ArtworkAppearanceCRUD.create,
      sampleArtwork, sampleExhibition, samplePhoto, sampleAppearance,
      sampleDB, emptyDB]
  · simp [create_sample_data, exhibitionStep, photoStep, appearanceStep,
      ArtworkCRUD.get_by_catalog_number, ArtworkCRUD.create,
      ExhibitionCRUD.search_by_name_exact, ExhibitionCRUD.create,
      InstallationPhotoCRUD.get_by_exhibition, InstallationPhotoCRUD.create,
      ArtworkAppearanceCRUD.get_by_photo, ArtworkAppearanceCRUD.create,
      sampleArtwork, sampleExhibition, samplePhoto, sampleAppearance,
      sampleDB, emptyDB]

theorem foldl_add_eq_sum (xs : List ℚ) (a : ℚ) :
    xs.foldl (fun acc x => acc + x) a = a + xs.sum := by
  induction xs generalizing a with
  | nil => simp
  | cons x xs ih => simp [ih, add_assoc]

/-- Claim C1: for every database state, get_statistics returns the number of
appearance rows as total_appearances, the number of verified rows as
verified_appearances, their difference as unverified_appearances, the ratio
verified/total (0 when total = 0) as verification_rate, and the mean
matching_confidence (0 when there are no rows) as average_confidence; on the
fixture with verified flags true/false/true and confidences 0.9/0.5/0.7 it
returns total 3, verified 2, unverified 1, rate 2/3, average 7/10. -/
theorem C1_get_statistics_spec :
    (∀ rows : List ArtworkAppearance,
      (ArtworkAppearanceCRUD.get_statistics rows).total_appearances = rows.length ∧
      (ArtworkAppearanceCRUD.get_statistics rows).verified_appearances
        = rows.countP (fun ap => ap.verified) ∧
      (ArtworkAppearanceCRUD.get_statistics rows).unverified_appearances
        = rows.length - rows.countP (fun ap => ap.verified) ∧
      (ArtworkAppearanceCRUD.get_statistics rows).verification_rate
        = (if rows.length = 0 then 0
           else (rows.countP (fun ap => ap.verified) : ℚ) / (rows.length : ℚ)) ∧
      (ArtworkAppearanceCRUD.get_statistics rows).average_confidence
        = (if rows.length = 0 then 0
           else (rows.map (fun ap => ap.matching_confidence)).sum / (rows.length : ℚ)))
    ∧ ArtworkAppearanceCRUD.get_statistics statsFixture
        = { total_appearances := 3, verified_appearances := 2,
            unverified_appearances := 1, verification_rate := 2/3,
            average_confidence := 7/10 } := by
  constructor
  · intro rows
    refine ⟨rfl, ?_, ?_, ?_, ?_⟩
    · simp [ArtworkAppearanceCRUD.get_statistics, List.countP_eq_length_filter]
    · simp [ArtworkAppearanceCRUD.get_statistics, List.countP_eq_length_filter]
    · simp only [ArtworkAppearanceCRUD.get_statistics, List.countP_eq_length_filter]
      rcases Nat.eq_zero_or_pos rows.length with h | h
      · simp [h]
      · simp [h, Nat.pos_iff_ne_zero.mp h]
    · simp only [ArtworkAppearanceCRUD.get_statistics, sqlAvg]
      rcases rows with _ | ⟨r, rs⟩
      · simp
      · simp [foldl_add_eq_sum]
  · norm_num [ArtworkAppearanceCRUD.get_statistics, statsFixture, statsFixtureRow,
      sqlAvg, List.filter, foldl_add_eq_sum, AppearanceStats.mk.injEq]
